import Mathlib

/-!
Shallow embedding of the task-management backend (Go, gin + mongo-driver)
covering the JWT middleware, the auth handler, the goal handler and the
goal model (progress computation). Machine times are Unix seconds (Nat),
MongoDB ObjectIDs are opaque handles, the HMAC is modelled as an ideal MAC
(a value determined by, and determining, the algorithm, the secret and the
signed claims), and bcrypt is modelled as an ideal salted hash (comparison
succeeds exactly on the original plaintext). Float64 progress arithmetic is
modelled as exact rational arithmetic.
-/

/-- Opaque 12-byte MongoDB ObjectID (primitive.ObjectID), modelled as an
opaque numeric handle with decidable equality. -/
structure ObjectId where
  val : Nat
deriving DecidableEq

/-- A string in the position of a 24-hex-char ObjectID rendering.
ObjectID.Hex always yields a valid rendering and ObjectIDFromHex inverts it;
any other string is rejected by ObjectIDFromHex. The codec is modelled
symbolically by these two constructors. -/
inductive HexString where
  | ofId (id : ObjectId)
  | invalid (s : String)
deriving DecidableEq

/-- primitive.ObjectIDFromHex: succeeds exactly on valid 24-hex renderings. -/
def objectIdFromHex : HexString → Option ObjectId
  | HexString.ofId i => some i
  | HexString.invalid _ => none

/-- JWT signing algorithms relevant to the middleware: the three HMAC
variants, an asymmetric one and the alg-none degenerate case. -/
inductive Alg where
  | HS256
  | HS384
  | HS512
  | RS256
  | noAlg
deriving DecidableEq

/-- The jwt.SigningMethodHMAC family test performed by the keyfunc in
AuthRequired (a Go type assertion on the token method). -/
def Alg.isHMAC : Alg → Bool
  | Alg.HS256 => true
  | Alg.HS384 => true
  | Alg.HS512 => true
  | Alg.RS256 => false
  | Alg.noAlg => false

/-- TokenClaims from the middleware: the custom userId claim (a hex-rendered
ObjectID string) plus the registered issuedAt and expiresAt claims. -/
structure TokenClaims where
  userID : HexString
  issuedAt : Nat
  expiresAt : Nat
deriving DecidableEq

/-- Ideal-MAC value: an HMAC tag computed from an algorithm, a secret and the
signed claims, with no collisions and no forgeries. -/
structure MacTag where
  alg : Alg
  secret : String
  claims : TokenClaims
deriving DecidableEq

/-- A serialized JWT: declared algorithm (header), claims (payload) and
signature. -/
structure Token where
  alg : Alg
  claims : TokenClaims
  sig : MacTag
deriving DecidableEq

/-- jwt.NewWithClaims followed by SignedString: signs the claims with the
given algorithm and secret. -/
def signToken (alg : Alg) (secret : String) (claims : TokenClaims) : Token :=
  { alg := alg, claims := claims, sig := { alg := alg, secret := secret, claims := claims } }

/-- The algorithm JwtMiddleware.GenerateToken signs with
(jwt.SigningMethodHS256). -/
def issueAlg : Alg := Alg.HS256

/-- JwtMiddleware.GenerateToken: claims carry userID.Hex(), issuedAt now and
expiresAt now plus expiryHours hours; signed with HS256 under the server
secret. -/
def generateToken (secret : String) (uid : ObjectId) (expiryHours : Nat) (now : Nat) : Token :=
  signToken issueAlg secret
    { userID := HexString.ofId uid
      issuedAt := now
      expiresAt := now + expiryHours * 3600 }

/-- Error outcomes of the handlers and middleware, one constructor per
distinct response produced by the modelled code paths. -/
inductive ApiError where
  | authHeaderRequired
  | badAuthHeaderFormat
  | invalidOrExpiredToken
  | invalidUserIdInToken
  | invalidEmailOrPassword
  | goalNotFound
  | failedToGetUpdatedGoal
deriving DecidableEq

/-- HTTP status code attached to each error response by the Go code. -/
def ApiError.status : ApiError → Nat
  | ApiError.authHeaderRequired => 401
  | ApiError.badAuthHeaderFormat => 401
  | ApiError.invalidOrExpiredToken => 401
  | ApiError.invalidUserIdInToken => 401
  | ApiError.invalidEmailOrPassword => 401
  | ApiError.goalNotFound => 404
  | ApiError.failedToGetUpdatedGoal => 500

/-- Token verification as performed inside AuthRequired by
jwt.ParseWithClaims with the HMAC-family keyfunc, followed by the
ObjectIDFromHex conversion of the userId claim: reject a non-HMAC declared
algorithm, reject a signature that is not the MAC of the claims under the
server secret with the declared algorithm, reject an expired token (jwt v5
treats the token as expired whenever now is not before expiresAt), then
decode the subject. -/
def verifyToken (secret : String) (now : Nat) (tk : Token) : Except ApiError ObjectId :=
  if tk.alg.isHMAC = false then Except.error ApiError.invalidOrExpiredToken
  else if tk.sig ≠ { alg := tk.alg, secret := secret, claims := tk.claims } then
    Except.error ApiError.invalidOrExpiredToken
  else if tk.claims.expiresAt ≤ now then Except.error ApiError.invalidOrExpiredToken
  else
    match objectIdFromHex tk.claims.userID with
    | some uid => Except.ok uid
    | none => Except.error ApiError.invalidUserIdInToken

/-- Go strings.Split with separator a single space: subslices of the input
between consecutive space characters; the empty input yields one empty
part. -/
def splitSpace : List Char → List (List Char)
  | [] => [[]]
  | c :: rest =>
    if c = ' ' then [] :: splitSpace rest
    else
      match splitSpace rest with
      | [] => [[c]]
      | p :: ps => (c :: p) :: ps

/-- JwtMiddleware.AuthRequired on the raw Authorization header value:
reject an empty header, split on spaces, require exactly two parts with the
first equal to the literal string Bearer, then hand the second part to the
token verifier. The verifier is a parameter because the middleware treats
jwt.ParseWithClaims as a black box on the token substring. -/
def authRequired (verifyTok : List Char → Except ApiError ObjectId)
    (hdr : List Char) : Except ApiError ObjectId :=
  if hdr = [] then Except.error ApiError.authHeaderRequired
  else
    match splitSpace hdr with
    | [scheme, tok] =>
      if scheme = "Bearer".data then verifyTok tok
      else Except.error ApiError.badAuthHeaderFormat
    | _ => Except.error ApiError.badAuthHeaderFormat

/-- models.SubTask. Times are Unix seconds; pointer-to-time fields are
Option. -/
structure SubTask where
  id : ObjectId
  title : String
  description : String
  completed : Bool
  dueDate : Option Nat
  createdAt : Nat
  updatedAt : Nat
deriving DecidableEq

/-- models.Goal. Progress is float64 in Go, modelled as an exact rational. -/
structure Goal where
  id : ObjectId
  userId : ObjectId
  title : String
  description : String
  subTasks : List SubTask
  startDate : Nat
  endDate : Option Nat
  completed : Bool
  progress : ℚ
  createdAt : Nat
  updatedAt : Nat
deriving DecidableEq

/-- Goal.CalculateProgress: with no subtasks the progress becomes 0,
otherwise the count of completed subtasks divided by the total, times
100. -/
def Goal.calculateProgress (g : Goal) : Goal :=
  if g.subTasks.length = 0 then { g with progress := 0 }
  else
    { g with
        progress :=
          ((g.subTasks.countP (fun t => t.completed) : ℚ) / (g.subTasks.length : ℚ)) * 100 }

/-- Goal.IsCompleted: returns the possibly mutated goal together with the
returned Bool. With no subtasks it returns false WITHOUT touching the
Completed field (the Go method returns early); otherwise it walks the
subtasks, and on the first incomplete one sets Completed to false and
returns false, else sets Completed to true and returns true. -/
def Goal.isCompleted (g : Goal) : Goal × Bool :=
  if g.subTasks.length = 0 then (g, false)
  else if g.subTasks.all (fun t => t.completed) then ({ g with completed := true }, true)
  else ({ g with completed := false }, false)

/-- The Progress Engine of the spec: CalculateProgress followed by
IsCompleted, yielding the recomputed goal. -/
def Goal.recompute (g : Goal) : Goal :=
  (Goal.isCompleted (Goal.calculateProgress g)).1

/-- CreateGoalRequest: the JSON body of POST /api/goals after binding;
omitted fields take their Go zero values. There is no userId field. -/
structure CreateGoalRequest where
  title : String
  description : String
  startDate : Nat
  endDate : Option Nat
deriving DecidableEq

/-- UpdateGoalRequest: the JSON body of PUT /api/goals/:id after binding;
omitted fields take their Go zero values (empty string, zero time, nil
pointer, false). -/
structure UpdateGoalRequest where
  title : String
  description : String
  startDate : Nat
  endDate : Option Nat
  completed : Bool
deriving DecidableEq

/-- GoalHandler.CreateGoal after validation: the stored document. The owner
field is the authenticated userId taken from the request context; subtasks
start empty, completed false, progress 0, createdAt and updatedAt now. -/
def createGoal (ctxUserId : ObjectId) (req : CreateGoalRequest)
    (newId : ObjectId) (now : Nat) : Goal :=
  { id := newId
    userId := ctxUserId
    title := req.title
    description := req.description
    subTasks := []
    startDate := req.startDate
    endDate := req.endDate
    completed := false
    progress := 0
    createdAt := now
    updatedAt := now }

/-- Field names of the goal document that can occur as keys in an update
document. -/
inductive GoalField where
  | fId
  | fUserId
  | fTitle
  | fDescription
  | fSubTasks
  | fStartDate
  | fEndDate
  | fCompleted
  | fProgress
  | fCreatedAt
  | fUpdatedAt
deriving DecidableEq

/-- BSON values occurring in the update documents built by the handler. -/
inductive FieldValue where
  | str (s : String)
  | time (t : Nat)
  | optTime (t : Option Nat)
  | bool (b : Bool)
  | oid (i : ObjectId)
deriving DecidableEq

/-- The update document built by GoalHandler.UpdateGoal: updatedAt always;
title, description, startDate only when not the Go zero value; endDate only
when the pointer is non-nil; completed always, with the request value. -/
def buildUpdateDoc (req : UpdateGoalRequest) (now : Nat) : List (GoalField × FieldValue) :=
  [(GoalField.fUpdatedAt, FieldValue.time now)]
    ++ (if req.title ≠ "" then [(GoalField.fTitle, FieldValue.str req.title)] else [])
    ++ (if req.description ≠ "" then
          [(GoalField.fDescription, FieldValue.str req.description)]
        else [])
    ++ (if req.startDate ≠ 0 then [(GoalField.fStartDate, FieldValue.time req.startDate)] else [])
    ++ (match req.endDate with
        | some d => [(GoalField.fEndDate, FieldValue.optTime (some d))]
        | none => [])
    ++ [(GoalField.fCompleted, FieldValue.bool req.completed)]

/-- MongoDB dollar-set semantics for a single key-value pair on a goal
document. -/
def setField (g : Goal) : GoalField × FieldValue → Goal
  | (GoalField.fTitle, FieldValue.str s) => { g with title := s }
  | (GoalField.fDescription, FieldValue.str s) => { g with description := s }
  | (GoalField.fStartDate, FieldValue.time t) => { g with startDate := t }
  | (GoalField.fEndDate, FieldValue.optTime d) => { g with endDate := d }
  | (GoalField.fCompleted, FieldValue.bool b) => { g with completed := b }
  | (GoalField.fUpdatedAt, FieldValue.time t) => { g with updatedAt := t }
  | (GoalField.fUserId, FieldValue.oid i) => { g with userId := i }
  | (GoalField.fId, FieldValue.oid i) => { g with id := i }
  | (GoalField.fCreatedAt, FieldValue.time t) => { g with createdAt := t }
  | (_, _) => g

/-- MongoDB dollar-set of a whole update document. -/
def applyUpdateDoc (g : Goal) (doc : List (GoalField × FieldValue)) : Goal :=
  doc.foldl setField g

/-- The owner-scoped FindOne filter used by GetGoal, UpdateGoal and
DeleteGoal: match on both the goal id and the authenticated userId. -/
def findGoal (store : List Goal) (gid uid : ObjectId) : Option Goal :=
  store.find? (fun g => g.id == gid && g.userId == uid)

/-- GoalHandler.GetGoal: owner-scoped FindOne; ErrNoDocuments becomes a 404
goal-not-found response; the found goal is returned as stored, with no
recomputation. -/
def getGoal (store : List Goal) (ctxUserId gid : ObjectId) : Except ApiError Goal :=
  match findGoal store gid ctxUserId with
  | some g => Except.ok g
  | none => Except.error ApiError.goalNotFound

/-- mongo UpdateOne with the owner-scoped filter: dollar-set applied to the
first matching document, the rest unchanged. -/
def updateOneSet (store : List Goal) (gid uid : ObjectId)
    (doc : List (GoalField × FieldValue)) : List Goal :=
  match store with
  | [] => []
  | g :: rest =>
    if g.id == gid && g.userId == uid then applyUpdateDoc g doc :: rest
    else g :: updateOneSet rest gid uid doc

/-- GoalHandler.UpdateGoal: owner-scoped UpdateOne with the built update
document; MatchedCount zero becomes 404; otherwise the goal is fetched
again with the same owner-scoped filter and returned as stored, with no
recomputation. Returns the response goal together with the new store. -/
def updateGoal (store : List Goal) (ctxUserId gid : ObjectId)
    (req : UpdateGoalRequest) (now : Nat) : Except ApiError (Goal × List Goal) :=
  if (findGoal store gid ctxUserId).isSome then
    let store2 := updateOneSet store gid ctxUserId (buildUpdateDoc req now)
    match findGoal store2 gid ctxUserId with
    | some g => Except.ok (g, store2)
    | none => Except.error ApiError.failedToGetUpdatedGoal
  else Except.error ApiError.goalNotFound

/-- GoalHandler.DeleteGoal: owner-scoped DeleteOne; DeletedCount zero
becomes 404; otherwise the matching document is removed. Returns the new
store. -/
def deleteGoal (store : List Goal) (ctxUserId gid : ObjectId) :
    Except ApiError (List Goal) :=
  if (findGoal store gid ctxUserId).isSome then
    Except.ok (store.eraseP (fun g => g.id == gid && g.userId == ctxUserId))
  else Except.error ApiError.goalNotFound

/-- Ideal bcrypt hash value: comparison against it succeeds exactly on the
plaintext it was generated from (GenerateFromPassword followed by
CompareHashAndPassword); the salt and cost are irrelevant to this
relation. -/
structure BcryptHash where
  plain : String
deriving DecidableEq

/-- bcrypt.GenerateFromPassword as used by User.HashPassword. -/
def bcryptHash (password : String) : BcryptHash := BcryptHash.mk password

/-- models.User as stored: the Password field holds the bcrypt hash after
registration. -/
structure User where
  id : ObjectId
  username : String
  email : String
  password : BcryptHash
  firstName : String
  lastName : String
  createdAt : Nat
  updatedAt : Nat
deriving DecidableEq

/-- User.ComparePassword via bcrypt.CompareHashAndPassword: true exactly
when the supplied plaintext hashes to the stored hash. -/
def User.comparePassword (u : User) (password : String) : Bool :=
  u.password == bcryptHash password

/-- models.UserResponse: the outward user representation, with no password
field at all. -/
structure UserResponse where
  id : ObjectId
  username : String
  email : String
  firstName : String
  lastName : String
  createdAt : Nat
deriving DecidableEq

/-- User.ToResponse. -/
def User.toResponse (u : User) : UserResponse :=
  { id := u.id
    username := u.username
    email := u.email
    firstName := u.firstName
    lastName := u.lastName
    createdAt := u.createdAt }

/-- JSON values produced by the serialized responses. -/
inductive Json where
  | str (s : String)
  | oid (i : ObjectId)
  | time (t : Nat)
  | jwt (t : Token)
  | obj (fields : List (String × Json))

/-- json.Marshal of models.UserResponse as an ordered field list, following
the struct tags: firstName and lastName carry omitempty. -/
def userResponseJson (r : UserResponse) : List (String × Json) :=
  [("id", Json.oid r.id), ("username", Json.str r.username), ("email", Json.str r.email)]
    ++ (if r.firstName ≠ "" then [("firstName", Json.str r.firstName)] else [])
    ++ (if r.lastName ≠ "" then [("lastName", Json.str r.lastName)] else [])
    ++ [("createdAt", Json.time r.createdAt)]

/-- json.Marshal of models.User as an ordered field list, following the
struct tags: the Password field is tagged with a dash and is always
omitted; firstName and lastName carry omitempty. -/
def userJson (u : User) : List (String × Json) :=
  [("id", Json.oid u.id), ("username", Json.str u.username), ("email", Json.str u.email)]
    ++ (if u.firstName ≠ "" then [("firstName", Json.str u.firstName)] else [])
    ++ (if u.lastName ≠ "" then [("lastName", Json.str u.lastName)] else [])
    ++ [("createdAt", Json.time u.createdAt), ("updatedAt", Json.time u.updatedAt)]

/-- The serialized AuthResponse body returned by Register and Login: the
token and the ToResponse view of the user. -/
def authResponseJson (tok : Token) (u : User) : List (String × Json) :=
  [("token", Json.jwt tok), ("user", Json.obj (userResponseJson (User.toResponse u)))]

/-- LoginRequest after binding and validation. -/
structure LoginRequest where
  email : String
  password : String
deriving DecidableEq

/-- The FindOne lookup by email used by AuthHandler.Login. -/
def findUserByEmail (users : List User) (email : String) : Option User :=
  users.find? (fun u => u.email == email)

/-- AuthHandler.Login after binding and validation: look the user up by
email, answer 401 invalid-email-or-password when no record matches; compare
the password against the stored hash, answer the same 401 error when the
comparison fails; otherwise issue a 24-hour token and return it with the
ToResponse view of the user. -/
def login (secret : String) (now : Nat) (users : List User) (req : LoginRequest) :
    Except ApiError (List (String × Json)) :=
  match findUserByEmail users req.email with
  | none => Except.error ApiError.invalidEmailOrPassword
  | some u =>
    if u.comparePassword req.password then
      Except.ok (authResponseJson (generateToken secret u.id 24 now) u)
    else Except.error ApiError.invalidEmailOrPassword

/-- Concrete identity handle used in witnesses (identity A). -/
def aliceId : ObjectId := ObjectId.mk 1

/-- Concrete identity handle used in witnesses (identity B). -/
def bobId : ObjectId := ObjectId.mk 2

/-- Concrete goal id used in witnesses. -/
def goalId1 : ObjectId := ObjectId.mk 10

/-- A store holding one goal created by identity A through CreateGoal. -/
def aliceGoalStore : List Goal :=
  [createGoal aliceId
    { title := "Learn Go", description := "", startDate := 0, endDate := none } goalId1 0]

/-- An update request whose JSON body was empty: every field at its Go zero
value. -/
def emptyUpdateReq : UpdateGoalRequest :=
  { title := "", description := "", startDate := 0, endDate := none, completed := false }

/-- An update request whose JSON body was exactly a true completed flag. -/
def setCompletedReq : UpdateGoalRequest :=
  { title := "", description := "", startDate := 0, endDate := none, completed := true }

/-- A stored goal whose completed flag is true while its subtask list is
empty; reachable through the API by updating a fresh goal with a true
completed flag. -/
def staleGoal : Goal :=
  { id := goalId1
    userId := aliceId
    title := "Ship"
    description := ""
    subTasks := []
    startDate := 0
    endDate := none
    completed := true
    progress := 0
    createdAt := 0
    updatedAt := 0 }

/-- A concrete token verifier used to instantiate the middleware in
witnesses: accepts exactly one token substring. -/
def vt0 : List Char → Except ApiError ObjectId := fun tok =>
  if tok = "tkn".data then Except.ok (ObjectId.mk 7)
  else Except.error ApiError.invalidOrExpiredToken

/-- Claims of a concrete HS384-signed token. -/
def hs384Claims : TokenClaims :=
  { userID := HexString.ofId (ObjectId.mk 5), issuedAt := 0, expiresAt := 10 }

/-- A concrete token signed with HS384 under the server secret. -/
def hs384Token : Token := signToken Alg.HS384 "server-secret" hs384Claims


/-- Helper: the owner-scoped filter finds nothing when every stored goal
with the requested id belongs to a different owner. -/
theorem findGoal_eq_none_of_owner_mismatch (store : List Goal) (gid uid : ObjectId)
    (h : ∀ g ∈ store, g.id = gid → g.userId ≠ uid) :
    findGoal store gid uid = none := by
  apply List.find?_eq_none.mpr
  intro g hg
  simp only [Bool.and_eq_true, beq_iff_eq, not_and]
  intro h1 h2
  exact h g hg h1 h2

/-- Helper: closed form of the dollar-set of the update document built by
UpdateGoal, by cases on which request fields are at their zero values. -/
theorem applyUpdate_fields (g : Goal) (req : UpdateGoalRequest) (now : Nat) :
    applyUpdateDoc g (buildUpdateDoc req now) =
      { g with
          title := if req.title ≠ "" then req.title else g.title
          description := if req.description ≠ "" then req.description else g.description
          startDate := if req.startDate ≠ 0 then req.startDate else g.startDate
          endDate := req.endDate.elim g.endDate some
          completed := req.completed
          updatedAt := now } := by
  by_cases ht : req.title = "" <;> by_cases hd : req.description = "" <;>
    by_cases hs : req.startDate = 0 <;> cases hE : req.endDate <;>
      simp [buildUpdateDoc, applyUpdateDoc, setField, ht, hd, hs, hE, Option.elim]

/-- Helper: errors of the concrete witness verifier all carry status 401. -/
theorem vt0_status (tok : List Char) (e : ApiError) (h : vt0 tok = Except.error e) :
    ApiError.status e = 401 := by
  unfold vt0 at h
  split at h
  · simp at h
  · simp only [Except.error.injEq] at h
    subst h
    rfl

/-- C1: GetGoal, UpdateGoal and DeleteGoal filter by both the goal id and
the authenticated identity id; when the goal id exists in the store but
every such goal has a different owner, all three operations answer the 404
goal-not-found error (the error taxonomy has no forbidden outcome), so the
existence of the resource of another user is not disclosed. -/
theorem owner_mismatch_yields_not_found (store : List Goal) (callerId gid : ObjectId)
    (req : UpdateGoalRequest) (now : Nat)
    (hex : ∃ g ∈ store, g.id = gid)
    (hown : ∀ g ∈ store, g.id = gid → g.userId ≠ callerId) :
    getGoal store callerId gid = Except.error ApiError.goalNotFound ∧
    updateGoal store callerId gid req now = Except.error ApiError.goalNotFound ∧
    deleteGoal store callerId gid = Except.error ApiError.goalNotFound ∧
    ApiError.status ApiError.goalNotFound = 404 := by
  have hf := findGoal_eq_none_of_owner_mismatch store gid callerId hown
  refine ⟨?_, ?_, ?_, rfl⟩
  · simp [getGoal, hf]
  · simp [updateGoal, hf]
  · simp [deleteGoal, hf]

/-- Witness for C1: identity B requesting the goal of identity A receives
the 404 goal-not-found error. -/
theorem owner_mismatch_yields_not_found_witness :
    getGoal aliceGoalStore bobId goalId1 = Except.error ApiError.goalNotFound :=
  (owner_mismatch_yields_not_found aliceGoalStore bobId goalId1 emptyUpdateReq 5
    (by decide) (by decide)).1

/-- C2 (code bug): the handlers never invoke the Progress Engine. Updating a
freshly created goal with a body carrying only a true completed flag makes
UpdateGoal return, and GetGoal subsequently return, a goal whose completed
field is true while it has no subtasks, although the engine computes false
for that subtask list, so a client-supplied completed value is returned on
the read paths. -/
theorem returned_goal_engine_inconsistent :
    ∃ g store2,
      updateGoal aliceGoalStore aliceId goalId1 setCompletedReq 5 = Except.ok (g, store2) ∧
      getGoal store2 aliceId goalId1 = Except.ok g ∧
      g.subTasks = [] ∧ g.completed = true ∧ (Goal.isCompleted g).2 = false := by
  refine ⟨_, _, rfl, rfl, rfl, rfl, rfl⟩

/-- C3: a token produced by GenerateToken under the server secret verifies
to the issuing identity id exactly while the current time is before
issuedAt plus expiryHours hours, and is rejected as invalid-or-expired from
that instant on. -/
theorem issue_verify_roundtrip (secret : String) (uid : ObjectId)
    (ttlHours iat now : Nat) (hpos : 0 < ttlHours) :
    (now < iat + ttlHours * 3600 →
      verifyToken secret now (generateToken secret uid ttlHours iat) = Except.ok uid) ∧
    (iat + ttlHours * 3600 ≤ now →
      verifyToken secret now (generateToken secret uid ttlHours iat) =
        Except.error ApiError.invalidOrExpiredToken) := by
  constructor
  · intro h
    simp [verifyToken, generateToken, signToken, issueAlg, Alg.isHMAC, objectIdFromHex,
      Nat.not_le.mpr h]
  · intro h
    simp [verifyToken, generateToken, signToken, issueAlg, Alg.isHMAC, objectIdFromHex, h]

/-- Witness for C3: a one-hour token verifies at a time before expiry and is
rejected at expiry. -/
theorem issue_verify_roundtrip_witness :
    verifyToken "s" 5 (generateToken "s" (ObjectId.mk 7) 1 0) = Except.ok (ObjectId.mk 7) ∧
    verifyToken "s" 3600 (generateToken "s" (ObjectId.mk 7) 1 0) =
      Except.error ApiError.invalidOrExpiredToken :=
  ⟨(issue_verify_roundtrip "s" (ObjectId.mk 7) 1 0 5 (by decide)).1 (by decide),
   (issue_verify_roundtrip "s" (ObjectId.mk 7) 1 0 3600 (by decide)).2 (by decide)⟩

/-- C4: the middleware accepts a header exactly when it splits on single
spaces into exactly two parts, the first being the literal string Bearer
and the second a token accepted by the verifier; every other header shape
is answered with a 401 response, as is every verifier rejection. -/
theorem authRequired_bearer_shape (verifyTok : List Char → Except ApiError ObjectId)
    (hdr : List Char) (uid : ObjectId)
    (hv : ∀ tok e, verifyTok tok = Except.error e → ApiError.status e = 401) :
    (authRequired verifyTok hdr = Except.ok uid ↔
      ∃ tok, splitSpace hdr = ["Bearer".data, tok] ∧ verifyTok tok = Except.ok uid) ∧
    (∀ e, authRequired verifyTok hdr = Except.error e → ApiError.status e = 401) := by
  by_cases h0 : hdr = []
  · subst h0
    constructor
    · simp [authRequired, splitSpace]
    · intro e he
      simp only [authRequired, if_true, reduceIte, Except.error.injEq] at he
      subst he
      rfl
  · rcases hsp : splitSpace hdr with _ | ⟨p0, _ | ⟨p1, _ | ⟨p2, ps⟩⟩⟩
    · constructor
      · simp [authRequired, h0, hsp]
      · intro e he
        simp only [authRequired, if_neg h0, hsp, Except.error.injEq] at he
        subst he
        rfl
    · constructor
      · simp [authRequired, h0, hsp]
      · intro e he
        simp only [authRequired, if_neg h0, hsp, Except.error.injEq] at he
        subst he
        rfl
    · by_cases hb : p0 = "Bearer".data
      · subst hb
        constructor
        · constructor
          · intro hok
            refine ⟨p1, rfl, ?_⟩
            simpa [authRequired, h0, hsp] using hok
          · rintro ⟨tok, htok, hvok⟩
            simp only [List.cons.injEq] at htok
            obtain ⟨-, htok1, -⟩ := htok
            simp only [authRequired, if_neg h0, hsp, if_pos rfl]
            rw [htok1]
            exact hvok
        · intro e he
          simp only [authRequired, if_neg h0, hsp, if_pos rfl] at he
          exact hv p1 e he
      · constructor
        · constructor
          · intro hok
            simp [authRequired, h0, hsp, hb] at hok
          · rintro ⟨tok, htok, hvok⟩
            simp only [List.cons.injEq] at htok
            exact absurd htok.1 hb
        · intro e he
          simp only [authRequired, if_neg h0, hsp, if_neg hb, Except.error.injEq] at he
          subst he
          rfl
    · constructor
      · simp [authRequired, h0, hsp]
      · intro e he
        simp only [authRequired, if_neg h0, hsp, Except.error.injEq] at he
        subst he
        rfl

/-- Witness for C4: a well-shaped Bearer header with the accepted token
substring passes the middleware. -/
theorem authRequired_bearer_shape_witness :
    authRequired vt0 "Bearer tkn".data = Except.ok (ObjectId.mk 7) :=
  (authRequired_bearer_shape vt0 "Bearer tkn".data (ObjectId.mk 7) vt0_status).1.mpr
    ⟨"tkn".data, rfl, rfl⟩

/-- C5 counterexample: an update request whose body omits every field still
overwrites the stored completed flag, because the handler writes the
completed key into the update document unconditionally; a goal stored with
completed true comes back with completed false. -/
theorem update_overwrites_completed_counterexample :
    staleGoal.completed = true ∧
    ∃ g store2,
      updateGoal [staleGoal] aliceId goalId1 emptyUpdateReq 5 = Except.ok (g, store2) ∧
      g.completed = false := by
  refine ⟨rfl, _, _, rfl, rfl⟩

/-- C5 amended: a successful UpdateGoal applies title, description and
startDate only when they differ from their Go zero values and endDate only
when present, while completed is always written with the request value
(false when absent from the body) and updatedAt with the current time;
id, userId, subTasks, progress and createdAt keep their stored values. -/
theorem update_applies_request_fields (g : Goal) (req : UpdateGoalRequest) (now : Nat) :
    applyUpdateDoc g (buildUpdateDoc req now) =
      { g with
          title := if req.title ≠ "" then req.title else g.title
          description := if req.description ≠ "" then req.description else g.description
          startDate := if req.startDate ≠ 0 then req.startDate else g.startDate
          endDate := req.endDate.elim g.endDate some
          completed := req.completed
          updatedAt := now } :=
  applyUpdate_fields g req now

/-- C6 (code bug): on a goal with no subtasks whose stored completed flag is
true, the Progress Engine recomputation sets progress to 0 but leaves the
completed field true, because Goal.IsCompleted returns early on an empty
subtask list without clearing the field (its return value is false). -/
theorem recompute_empty_keeps_stale_completed :
    staleGoal.subTasks = [] ∧
    (Goal.recompute staleGoal).progress = 0 ∧
    (Goal.recompute staleGoal).completed = true ∧
    (Goal.isCompleted staleGoal).2 = false :=
  ⟨rfl, rfl, rfl, rfl⟩

/-- C7: the two failure causes of Login — no user record with the given
email, and a failing password comparison — produce the exact same
401 invalid-email-or-password error, which is distinct from the 404
not-found status, so the response does not reveal which field was wrong. -/
theorem login_failures_indistinguishable (secret : String) (now : Nat)
    (users : List User) (req : LoginRequest) :
    (findUserByEmail users req.email = none →
      login secret now users req = Except.error ApiError.invalidEmailOrPassword) ∧
    (∀ u, findUserByEmail users req.email = some u →
      u.comparePassword req.password = false →
      login secret now users req = Except.error ApiError.invalidEmailOrPassword) ∧
    ApiError.status ApiError.invalidEmailOrPassword = 401 ∧
    ApiError.status ApiError.invalidEmailOrPassword ≠ ApiError.status ApiError.goalNotFound := by
  refine ⟨?_, ?_, rfl, by decide⟩
  · intro h
    simp [login, h]
  · intro u hu hcmp
    simp [login, hu, hcmp]

/-- Witness for C7: a login attempt against an empty user store fails with
the uniform 401 error. -/
theorem login_failures_indistinguishable_witness :
    login "s" 0 [] { email := "a@x.com", password := "secret1" } =
      Except.error ApiError.invalidEmailOrPassword :=
  (login_failures_indistinguishable "s" 0 [] { email := "a@x.com", password := "secret1" }).1
    rfl

/-- C8 counterexample: a token whose header declares HS384 — different from
the HS256 algorithm GenerateToken signs with — but carrying a valid HS384
MAC under the server secret is accepted by the verification, because the
keyfunc only checks membership in the HMAC family. -/
theorem hs384_token_accepted :
    hs384Token.alg ≠ issueAlg ∧
    verifyToken "server-secret" 3 hs384Token = Except.ok (ObjectId.mk 5) :=
  ⟨by decide, rfl⟩

/-- C8 amended: verification rejects every token whose declared algorithm is
outside the HMAC family (defending against confusion with asymmetric or
alg-none tokens), and every accepted token has an HMAC-family algorithm —
but not necessarily the exact HS256 used at issuance. -/
theorem verify_requires_hmac_family (secret : String) (now : Nat) (tk : Token) :
    (tk.alg.isHMAC = false →
      verifyToken secret now tk = Except.error ApiError.invalidOrExpiredToken) ∧
    (∀ uid : ObjectId, verifyToken secret now tk = Except.ok uid → tk.alg.isHMAC = true) := by
  constructor
  · intro h
    simp [verifyToken, h]
  · intro uid h
    cases hA : tk.alg.isHMAC
    · unfold verifyToken at h
      rw [hA] at h
      simp at h
    · rfl

/-- Witness for C8 amended: an RS256-declared token is rejected even with a
matching MAC record. -/
theorem verify_requires_hmac_family_witness :
    verifyToken "server-secret" 3 (signToken Alg.RS256 "server-secret" hs384Claims) =
      Except.error ApiError.invalidOrExpiredToken :=
  (verify_requires_hmac_family "server-secret" 3
    (signToken Alg.RS256 "server-secret" hs384Claims)).1 rfl

/-- C9: the serialized Register and Login response bodies and the JSON
serialization of a user record are unchanged under any change of the stored
password hash — no output depends on it — and no serialized field is named
password; the outward ToResponse view has no password field at all. -/
theorem password_hash_never_serialized (u : User) (p : BcryptHash) (tok : Token) :
    authResponseJson tok { u with password := p } = authResponseJson tok u ∧
    userJson { u with password := p } = userJson u ∧
    "password" ∉ (userJson u).map Prod.fst ∧
    "password" ∉ (userResponseJson (User.toResponse u)).map Prod.fst := by
  refine ⟨rfl, rfl, ?_, ?_⟩
  · by_cases h1 : u.firstName = "" <;> by_cases h2 : u.lastName = "" <;>
      simp [userJson, h1, h2]
  · by_cases h1 : u.firstName = "" <;> by_cases h2 : u.lastName = "" <;>
      simp [userResponseJson, User.toResponse, h1, h2]

/-- C10: the owner field of a goal is set at creation from the authenticated
identity of the request context (the creation request body has no owner
field), and the update document built by UpdateGoal only ever contains the
updatedAt, title, description, startDate, endDate and completed keys —
never userId — so applying it never changes the owner. -/
theorem goal_ownership_immutable (req : UpdateGoalRequest) (now : Nat) :
    (∀ kv ∈ buildUpdateDoc req now,
      kv.1 ∈ [GoalField.fUpdatedAt, GoalField.fTitle, GoalField.fDescription,
        GoalField.fStartDate, GoalField.fEndDate, GoalField.fCompleted]) ∧
    (GoalField.fUserId ∉ (buildUpdateDoc req now).map Prod.fst) ∧
    (∀ g : Goal, (applyUpdateDoc g (buildUpdateDoc req now)).userId = g.userId) ∧
    (∀ (uid newId : ObjectId) (creq : CreateGoalRequest) (t : Nat),
      (createGoal uid creq newId t).userId = uid) := by
  have hmem : ∀ kv ∈ buildUpdateDoc req now,
      kv.1 ∈ [GoalField.fUpdatedAt, GoalField.fTitle, GoalField.fDescription,
        GoalField.fStartDate, GoalField.fEndDate, GoalField.fCompleted] := by
    simp only [buildUpdateDoc, List.forall_mem_append]
    refine ⟨⟨⟨⟨⟨?_, ?_⟩, ?_⟩, ?_⟩, ?_⟩, ?_⟩ <;>
      first
        | (intro kv hkv
           rw [List.mem_singleton] at hkv
           subst hkv
           simp)
        | (split <;> intro kv hkv <;>
            first
              | (rw [List.mem_singleton] at hkv
                 subst hkv
                 simp)
              | exact absurd hkv (List.not_mem_nil kv))
  refine ⟨hmem, ?_, ?_, fun uid newId creq t => rfl⟩
  · intro hin
    rw [List.mem_map] at hin
    obtain ⟨kv, hkv, hfst⟩ := hin
    have := hmem kv hkv
    rw [hfst] at this
    simp at this
  · intro g
    rw [applyUpdate_fields]

/-- Witness for C10: the updatedAt key of a concrete update document is
among the allowed keys, and a concrete update leaves the owner unchanged. -/
theorem goal_ownership_immutable_witness :
    (GoalField.fUpdatedAt ∈ [GoalField.fUpdatedAt, GoalField.fTitle, GoalField.fDescription,
      GoalField.fStartDate, GoalField.fEndDate, GoalField.fCompleted]) ∧
    (applyUpdateDoc staleGoal (buildUpdateDoc emptyUpdateReq 7)).userId = staleGoal.userId :=
  ⟨(goal_ownership_immutable emptyUpdateReq 7).1 (GoalField.fUpdatedAt, FieldValue.time 7)
      (by simp [buildUpdateDoc]),
   (goal_ownership_immutable emptyUpdateReq 7).2.2.1 staleGoal⟩
